import Mathlib

/-!
Verification of the admission-control / submit / poll / stream / eviction core
of `server.py`.

The Python source is shallowly embedded: every pure fragment becomes a Lean
function translated clause by clause from the source; the concurrent permit
lifecycle becomes an explicit transition system; network calls and other
environment effects become explicit oracle parameters (a poll outcome, a fetch
function, a submit outcome).  Machine integers do not overflow in any of the
embedded fragments (byte counts and timestamps are far below 2^63), so they
are modelled as `Nat`/`Int` directly.
-/

/- ===== JSON value model =====
   The Python handlers manipulate parsed JSON as dicts/lists/strings/bools.
   Objects are association lists; `objLookup` returns the value of a key
   (parsed JSON objects have unique keys). -/

inductive JVal where
  | null
  | jbool (b : Bool)
  | jnum (n : Int)
  | jstr (s : String)
  | jarr (elems : List JVal)
  | jobj (fields : List (String × JVal))
  deriving Repr

/- Python truthiness of a JSON value: `None`, `False`, `0`, `""`, `[]`, `{}`
   are falsy, everything else truthy. -/
def truthy : JVal → Bool
  | .null => false
  | .jbool b => b
  | .jnum n => n != 0
  | .jstr s => s ≠ ""
  | .jarr xs => !xs.isEmpty
  | .jobj fs => !fs.isEmpty

def objLookup : List (String × JVal) → String → Option JVal
  | [], _ => none
  | (k, v) :: rest, key => if k = key then some v else objLookup rest key

/- `d.get(k) == "lit"` in Python: true exactly when the key maps to that
   string. -/
def optIsStr (o : Option JVal) (s : String) : Bool :=
  match o with
  | some (.jstr t) => t = s
  | _ => false

/- ===== Status poller (`check_comfyui_video_status`, server.py 596-657) ===== -/

/- The spec's four-state job enum (§4.3). -/
inductive JobPhase where
  | queued
  | running
  | completed
  | failed
  deriving DecidableEq, Repr

/- The dict the Python function returns: `{"status": "IN_QUEUE"}`,
   `{"status": "IN_PROGRESS"}`, `{"status": "FAILED"}` or
   `{"status": "COMPLETED", "outputs": ...}`. -/
inductive PollStatus where
  | inQueue
  | inProgress
  | failed
  | completed (outputs : JVal)
  deriving Repr

def tagOf : PollStatus → JobPhase
  | .inQueue => .queued
  | .inProgress => .running
  | .failed => .failed
  | .completed _ => .completed

/- Classification of one history entry `task_info` (server.py 611-651).
   `none` models the exception path (a `status` value that is not a dict
   makes `.get` raise, caught by the outer handler which returns `None`). -/
def classifyTask (ti : List (String × JVal)) : Option PollStatus :=
  let outputsOpt := objLookup ti "outputs"
  -- `if "outputs" in task_info and task_info["outputs"]:`
  if (match outputsOpt with | some o => truthy o | none => false) then
    some (.completed (outputsOpt.getD .null))
  else
    -- `status_data = task_info.get("status", {})`
    match (objLookup ti "status").getD (.jobj []) with
    | .jobj sd =>
      let statusStr := objLookup sd "status_str"
      if optIsStr statusStr "success" then
        -- returns `task_info.get("outputs", {})`
        some (.completed ((objLookup ti "outputs").getD (.jobj [])))
      else if truthy ((objLookup sd "completed").getD (.jbool false)) then
        some (.completed ((objLookup ti "outputs").getD (.jobj [])))
      else if (objLookup ti "error").isSome || optIsStr statusStr "error" then
        some .failed
      else
        some .inProgress
    | _ => none

/- Parsed response of `GET {engine}/history/{prompt_id}` keyed by prompt id
   (server.py 606-611). -/
def check_comfyui_video_status_json (pid : String)
    (history : List (String × JVal)) : Option PollStatus :=
  match objLookup history pid with
  | none => some .inQueue
  | some (.jobj ti) => classifyTask ti
  | some _ => none

/- Transport-level outcome of the poll HTTP call.  `netFailure` covers the
   `requests` exceptions (connection error, timeout); a body of `none` is a
   response whose JSON parse raises. -/
inductive HttpPollResult where
  | netFailure
  | httpResp (code : Nat) (body : Option (List (String × JVal)))

/- server.py 596-657: non-200 → None; any exception (network, parse, shape)
   → None; otherwise classify the parsed history. -/
def check_comfyui_video_status (pid : String) : HttpPollResult → Option PollStatus
  | .netFailure => none
  | .httpResp code body =>
    if code ≠ 200 then none
    else
      match body with
      | none => none
      | some h => check_comfyui_video_status_json pid h

/-- C3: poll classification is a pure function of the engine's status
response; on the five fixture payloads — an empty entry for the job id, an
entry with non-empty outputs, an entry with `status.status_str = "success"`,
an entry with `status.status_str = "error"`, and a response missing the job
key — it yields `running`, `completed`, `completed`, `failed`, `queued`
respectively. -/
theorem c3_poll_classification_fixtures :
    (check_comfyui_video_status "job123"
        (.httpResp 200 (some [("job123", .jobj [])]))).map tagOf
      = some .running ∧
    (check_comfyui_video_status "job123"
        (.httpResp 200 (some [("job123", .jobj
          [("outputs", .jobj [("9", .jobj [("images", .jarr [.jstr "x.png"])])])])]))).map tagOf
      = some .completed ∧
    (check_comfyui_video_status "job123"
        (.httpResp 200 (some [("job123", .jobj
          [("status", .jobj [("status_str", .jstr "success")])])]))).map tagOf
      = some .completed ∧
    (check_comfyui_video_status "job123"
        (.httpResp 200 (some [("job123", .jobj
          [("status", .jobj [("status_str", .jstr "error")])])]))).map tagOf
      = some .failed ∧
    (check_comfyui_video_status "job123"
        (.httpResp 200 (some [("other_job", .jobj [])]))).map tagOf
      = some .queued := by
  refine ⟨rfl, rfl, rfl, rfl, rfl⟩

/- ===== Progress stream / driving poll loop (server.py 1353-1476) =====
   The generator is a push loop over successive poll outcomes.  The loop is
   embedded as a function of the list of poll outcomes (the environment's
   trace); each iteration costs the 3-second sleep, which is how the code
   accounts elapsed time against `VIDEO_TIMEOUT`. -/

def VIDEO_TIMEOUT : Nat := 600

def MAX_CONCURRENT_T2V : Nat := 5
def MAX_CONCURRENT_I2V : Nat := 5

def progressMsgOf : JobPhase → String
  | .queued => "> ⏳ 正在排队等待 GPU 资源...\n"
  | .running => "> 🎬 正在生成视频 (预计 2-3 分钟)...\n"
  | .completed => ""
  | .failed => ""

def videoUrlOf (host pid : String) : String :=
  host ++ "/files/images/" ++ pid ++ ".mp4"

def t2vSuccessContent (url : String) : String :=
  "✅ 视频生成成功！\n\n🎬 [点击这里](" ++ url ++ ")\n\n访问链接: " ++ url

def degradedContent : String := "⚠️ 生成完成但无法获取视频"

def t2vFailContent : String := "\n\n❌ 视频生成失败，请检查输入内容后重试。"

def t2vTimeoutContent : String := "\n\n⏱️ 任务超时（10分钟），请重试。"

/- server.py 1435: success content iff a video file was obtained, else the
   degraded-success message. -/
def completedContent (host pid : String) (vd : Option String) : String :=
  match vd with
  | some _ => t2vSuccessContent (videoUrlOf host pid)
  | none => degradedContent

inductive StreamChunk where
  | initial
  | keepalive
  | statusMsg (msg : String)
  | finalStop (content : String)
  | doneSentinel
  deriving DecidableEq, Repr

inductive LoopOutcome where
  | terminalCompleted
  | terminalFailed
  | timedOut
  | pollsExhausted
  deriving DecidableEq, Repr

inductive StepRes where
  | nextIter (last : JobPhase) (sleepSecs : Nat) (events : List StreamChunk)
  | finished (events : List StreamChunk) (outcome : LoopOutcome)
  deriving DecidableEq, Repr

/- One iteration of the while-loop body (server.py 1371-1464).  `videoData`
   is what the artifact download would yield if the iteration reaches the
   completed branch. -/
def pollIteration (host pid : String) (videoData : Option String)
    (last : JobPhase) (poll : Option PollStatus) : StepRes :=
  match poll with
  | none =>
    -- 1373-1384: transport failure → sleep 3, emit one keepalive, continue
    .nextIter last 3 [.keepalive]
  | some st =>
    let tag := tagOf st
    let msg := progressMsgOf tag
    -- 1396-1415: status-change message only when the status differs and has
    -- a message; otherwise a keepalive.
    let pre : List StreamChunk × JobPhase :=
      if tag ≠ last ∧ msg ≠ "" then ([.statusMsg msg], tag) else ([.keepalive], last)
    match st with
    | .completed outputs =>
      let vd := if truthy outputs then videoData else none
      .finished (pre.1 ++ [.finalStop (completedContent host pid vd), .doneSentinel])
        .terminalCompleted
    | .failed =>
      .finished (pre.1 ++ [.finalStop t2vFailContent, .doneSentinel]) .terminalFailed
    | _ => .nextIter pre.2 3 pre.1

/- The driving loop (server.py 1371: `while time.time() - start_time <
   VIDEO_TIMEOUT`).  An exhausted trace with the loop still live is reported
   as `pollsExhausted` (the real loop would keep polling). -/
def runVideoPollLoop (host pid : String) (videoData : Option String) :
    Nat → JobPhase → List (Option PollStatus) → List StreamChunk × LoopOutcome
  | elapsed, last, polls =>
    if elapsed < VIDEO_TIMEOUT then
      match polls with
      | [] => ([], .pollsExhausted)
      | p :: rest =>
        match pollIteration host pid videoData last p with
        | .finished evs out => (evs, out)
        | .nextIter last2 slp evs =>
          let r := runVideoPollLoop host pid videoData (elapsed + slp) last2 rest
          (evs ++ r.1, r.2)
    else
      ([.finalStop t2vTimeoutContent, .doneSentinel], .timedOut)

/-- C6: a poll that fails at the transport level (network exception, non-200
status, malformed body) classifies to the non-terminal `unknown` outcome
(`none`); on that outcome the driving loop leaves the last emitted status
unchanged, does not exit, emits exactly one keep-alive pulse and retries
after a fixed 3-second backoff; the loop is bounded only by the overall job
timeout (`VIDEO_TIMEOUT`), on whose expiry it emits the timeout terminal. -/
theorem c6_transient_poll_failure_retries :
    (∀ pid, check_comfyui_video_status pid .netFailure = none) ∧
    (∀ pid code body, code ≠ 200 →
      check_comfyui_video_status pid (.httpResp code body) = none) ∧
    (∀ pid, check_comfyui_video_status pid (.httpResp 200 none) = none) ∧
    (∀ host pid vd last,
      pollIteration host pid vd last none = .nextIter last 3 [.keepalive]) ∧
    (∀ host pid vd elapsed last rest, elapsed < VIDEO_TIMEOUT →
      runVideoPollLoop host pid vd elapsed last (none :: rest)
        = (StreamChunk.keepalive :: (runVideoPollLoop host pid vd (elapsed + 3) last rest).1,
           (runVideoPollLoop host pid vd (elapsed + 3) last rest).2)) ∧
    (∀ host pid vd elapsed last polls, VIDEO_TIMEOUT ≤ elapsed →
      runVideoPollLoop host pid vd elapsed last polls
        = ([.finalStop t2vTimeoutContent, .doneSentinel], .timedOut)) := by
  refine ⟨fun _ => rfl, ?_, fun _ => rfl, fun _ _ _ _ => rfl, ?_, ?_⟩
  · intro pid code body h
    simp [check_comfyui_video_status, h]
  · intro host pid vd elapsed last rest h
    rw [runVideoPollLoop.eq_def]
    simp [h, pollIteration]
  · intro host pid vd elapsed last polls h
    rw [runVideoPollLoop.eq_def]
    simp [Nat.not_lt.mpr h]

/-- Witness for C6 at concrete inputs: HTTP 500 classifies to `unknown`; a
transport-failed first poll at elapsed 0 yields a single keepalive and the
loop goes on; at elapsed 600 the loop exits with the timeout terminal. -/
theorem c6_transient_poll_failure_retries_witness :
    check_comfyui_video_status "p1" (.httpResp 500 none) = none ∧
    runVideoPollLoop "h" "p1" none 0 .queued [none]
      = ([.keepalive], .pollsExhausted) ∧
    runVideoPollLoop "h" "p1" none 600 .queued []
      = ([.finalStop t2vTimeoutContent, .doneSentinel], .timedOut) := by
  refine ⟨c6_transient_poll_failure_retries.2.1 "p1" 500 none (by decide), ?_, ?_⟩
  · rw [c6_transient_poll_failure_retries.2.2.2.2.1 "h" "p1" none 0 .queued []
      (by decide)]
    rfl
  · exact c6_transient_poll_failure_retries.2.2.2.2.2 "h" "p1" none 600 .queued []
      (by decide)

/- ===== Artifact store eviction (server.py 226-298) ===== -/

def GB : Nat := 1024 ^ 3

def MAX_STORAGE_SIZE_GB : Nat := 10
def CLEANUP_SIZE_GB : Nat := 2

/- `MAX_STORAGE_SIZE_GB` / `CLEANUP_SIZE_GB` in bytes.  The Python code
   compares `total_size / 1024**3 <= 10` in floats; for directory sizes this
   is the exact comparison `total_size <= 10 * 1024**3`, which is how it is
   embedded. -/
def capacityBytes : Nat := MAX_STORAGE_SIZE_GB * GB
def cleanupBytes : Nat := CLEANUP_SIZE_GB * GB

structure FileInfo where
  name : String
  mtime : Nat
  size : Nat
  deriving DecidableEq, Repr

/- `get_directory_size` (server.py 226-236): sum of the regular files'
   sizes. -/
def get_directory_size (files : List FileInfo) : Nat :=
  (files.map (fun f => f.size)).sum

/- `files_info.sort(key=lambda x: x['mtime'])` — Python's sort is stable, so
   as a function of the listing it equals stable insertion sort on mtime. -/
def insertByMtime (f : FileInfo) : List FileInfo → List FileInfo
  | [] => [f]
  | g :: rest =>
    if f.mtime ≤ g.mtime then f :: g :: rest else g :: insertByMtime f rest

def sortByMtime : List FileInfo → List FileInfo
  | [] => []
  | f :: rest => insertByMtime f (sortByMtime rest)

/- The deletion loop (server.py 278-288): walk the mtime-sorted listing,
   break as soon as at least `cleanup_bytes` have been freed, otherwise
   delete the file and accumulate its size.  Returns (deleted, kept). -/
def deleteOldest (target : Nat) (cleaned : Nat) :
    List FileInfo → List FileInfo × List FileInfo
  | [] => ([], [])
  | f :: rest =>
    if target ≤ cleaned then ([], f :: rest)
    else
      let r := deleteOldest target (cleaned + f.size) rest
      (f :: r.1, r.2)

/- `cleanup_old_files` (server.py 238-298), as a function from the directory
   listing to the listing it leaves behind. -/
def cleanup_old_files (files : List FileInfo) : List FileInfo :=
  if get_directory_size files ≤ capacityBytes then files
  else (deleteOldest cleanupBytes 0 (sortByMtime files)).2

/- The files an eviction pass removes. -/
def cleanupDeleted (files : List FileInfo) : List FileInfo :=
  if get_directory_size files ≤ capacityBytes then []
  else (deleteOldest cleanupBytes 0 (sortByMtime files)).1

theorem get_directory_size_cons (f : FileInfo) (l : List FileInfo) :
    get_directory_size (f :: l) = f.size + get_directory_size l := by
  simp [get_directory_size]

theorem get_directory_size_append (l₁ l₂ : List FileInfo) :
    get_directory_size (l₁ ++ l₂) = get_directory_size l₁ + get_directory_size l₂ := by
  simp [get_directory_size]

theorem insertByMtime_perm (f : FileInfo) (l : List FileInfo) :
    (insertByMtime f l).Perm (f :: l) := by
  induction l with
  | nil => simp [insertByMtime]
  | cons g rest ih =>
    rw [insertByMtime]
    split
    · exact List.Perm.refl _
    · exact (ih.cons g).trans (List.Perm.swap f g rest)

theorem sortByMtime_perm (l : List FileInfo) : (sortByMtime l).Perm l := by
  induction l with
  | nil => simp [sortByMtime]
  | cons f rest ih =>
    exact (insertByMtime_perm f (sortByMtime rest)).trans (ih.cons f)

theorem insertByMtime_pairwise (f : FileInfo) (l : List FileInfo)
    (h : l.Pairwise (fun a b => a.mtime ≤ b.mtime)) :
    (insertByMtime f l).Pairwise (fun a b => a.mtime ≤ b.mtime) := by
  induction l with
  | nil => simp [insertByMtime]
  | cons g rest ih =>
    rw [List.pairwise_cons] at h
    rw [insertByMtime]
    split
    · rename_i hle
      refine List.Pairwise.cons ?_ (List.Pairwise.cons h.1 h.2)
      intro x hx
      rcases List.mem_cons.mp hx with hx | hx
      · exact hx ▸ hle
      · exact Nat.le_trans hle (h.1 x hx)
    · rename_i hgt
      refine List.Pairwise.cons ?_ (ih h.2)
      intro x hx
      have hx2 := (insertByMtime_perm f rest).mem_iff.mp hx
      rcases List.mem_cons.mp hx2 with hx2 | hx2
      · exact hx2 ▸ Nat.le_of_not_le hgt
      · exact h.1 x hx2

theorem sortByMtime_sorted (l : List FileInfo) :
    (sortByMtime l).Pairwise (fun a b => a.mtime ≤ b.mtime) := by
  induction l with
  | nil => simp [sortByMtime]
  | cons f rest ih => exact insertByMtime_pairwise f (sortByMtime rest) ih

theorem deleteOldest_append (t c : Nat) (l : List FileInfo) :
    (deleteOldest t c l).1 ++ (deleteOldest t c l).2 = l := by
  induction l generalizing c with
  | nil => simp [deleteOldest]
  | cons f rest ih =>
    rw [deleteOldest]
    split
    · simp
    · simpa using ih (c + f.size)

theorem deleteOldest_freed (t c : Nat) (l : List FileInfo) :
    min t (c + get_directory_size l) ≤ c + get_directory_size (deleteOldest t c l).1 := by
  induction l generalizing c with
  | nil => simp [deleteOldest, get_directory_size]
  | cons f rest ih =>
    rw [deleteOldest]
    split
    · rename_i hle
      simp only [get_directory_size, List.map_nil, List.sum_nil]
      omega
    · rename_i hgt
      have h2 := ih (c + f.size)
      simp only [get_directory_size_cons]
      simp only [get_directory_size_cons] at h2 ⊢
      omega

theorem deleteOldest_minimal (t c : Nat) (l : List FileInfo) :
    (deleteOldest t c l).1 ≠ [] →
    c + get_directory_size (deleteOldest t c l).1.dropLast < t := by
  induction l generalizing c with
  | nil => simp [deleteOldest]
  | cons f rest ih =>
    rw [deleteOldest]
    split
    · simp
    · rename_i hgt
      intro _
      rcases hr : (deleteOldest t (c + f.size) rest).1 with _ | ⟨g, tl⟩
      · simpa [hr, get_directory_size] using Nat.lt_of_not_le hgt
      · have h2 := ih (c + f.size)
        rw [hr] at h2
        have h3 := h2 (by simp)
        show c + get_directory_size
            (f :: (deleteOldest t (c + f.size) rest).1).dropLast < t
        rw [hr]
        simp only [List.dropLast_cons₂, get_directory_size_cons] at h3 ⊢
        omega

/-- C7: an eviction pass deletes nothing when the directory total does not
exceed the capacity ceiling; otherwise it deletes files oldest-first
(ascending modification time, ties broken by listing order), stops as soon
as at least the 2 GB target has been freed or no files remain (at least
`min(target, total)` bytes are freed), and never deletes a file whose
modification time is newer than that of a file it leaves behind. -/
theorem c7_eviction_correct (files : List FileInfo) :
    (get_directory_size files ≤ capacityBytes →
      cleanup_old_files files = files ∧ cleanupDeleted files = []) ∧
    (capacityBytes < get_directory_size files →
      (cleanupDeleted files ++ cleanup_old_files files).Perm files ∧
      min cleanupBytes (get_directory_size files)
        ≤ get_directory_size (cleanupDeleted files) ∧
      (cleanupDeleted files ≠ [] →
        get_directory_size (cleanupDeleted files).dropLast < cleanupBytes) ∧
      (cleanupDeleted files).Pairwise (fun a b => a.mtime ≤ b.mtime) ∧
      (∀ d ∈ cleanupDeleted files, ∀ k ∈ cleanup_old_files files,
        d.mtime ≤ k.mtime)) := by
  constructor
  · intro h
    constructor
    · simp [cleanup_old_files, h]
    · simp [cleanupDeleted, h]
  · intro h
    have hnot : ¬ get_directory_size files ≤ capacityBytes := Nat.not_le.mpr h
    have hd : cleanupDeleted files
        = (deleteOldest cleanupBytes 0 (sortByMtime files)).1 := by
      simp [cleanupDeleted, hnot]
    have hk : cleanup_old_files files
        = (deleteOldest cleanupBytes 0 (sortByMtime files)).2 := by
      simp [cleanup_old_files, hnot]
    have happ := deleteOldest_append cleanupBytes 0 (sortByMtime files)
    have hsum : get_directory_size (sortByMtime files) = get_directory_size files := by
      unfold get_directory_size
      exact List.Perm.sum_eq (List.Perm.map _ (sortByMtime_perm files))
    have hsorted := sortByMtime_sorted files
    rw [← happ] at hsorted
    obtain ⟨hpd, _, hcross⟩ := List.pairwise_append.mp hsorted
    refine ⟨?_, ?_, ?_, ?_, ?_⟩
    · rw [hd, hk, happ]
      exact sortByMtime_perm files
    · have hf := deleteOldest_freed cleanupBytes 0 (sortByMtime files)
      rw [Nat.zero_add, Nat.zero_add, hsum] at hf
      rw [hd]
      exact hf
    · intro hne
      have hm := deleteOldest_minimal cleanupBytes 0 (sortByMtime files)
      rw [hd] at hne ⊢
      have := hm hne
      omega
    · rw [hd]
      exact hpd
    · rw [hd, hk]
      exact hcross

def c7Files : List FileInfo :=
  [⟨"a.mp4", 1, 6 * GB⟩, ⟨"b.mp4", 3, 4 * GB⟩, ⟨"c.mp4", 2, 3 * GB⟩]

/-- Witness for C7: a concrete 13 GB directory exceeds the 10 GB ceiling;
the pass frees at least the 2 GB target and deletes no file newer than a
kept one. -/
theorem c7_eviction_correct_witness :
    capacityBytes < get_directory_size c7Files ∧
    min cleanupBytes (get_directory_size c7Files)
      ≤ get_directory_size (cleanupDeleted c7Files) ∧
    ∀ d ∈ cleanupDeleted c7Files, ∀ k ∈ cleanup_old_files c7Files,
      d.mtime ≤ k.mtime := by
  refine ⟨by decide, ((c7_eviction_correct c7Files).2 (by decide)).2.1,
    ((c7_eviction_correct c7Files).2 (by decide)).2.2.2.2⟩

def c4Files : List FileInfo :=
  [⟨"f1.mp4", 1, 4 * GB⟩, ⟨"f2.mp4", 2, 4 * GB⟩, ⟨"f3.mp4", 3, 4 * GB⟩,
   ⟨"f4.mp4", 4, 4 * GB⟩, ⟨"f5.mp4", 5, 4 * GB⟩]

/-- C4 counterexample: a 20 GB directory (five 4 GB files) still holds 16 GB
immediately after the eviction pass — 6 GB above the 10 GB ceiling, which
exceeds any whole-file slack (every file is 4 GB): the pass frees only the
fixed 2 GB target (rounded up to whole files), not the excess over the
ceiling. -/
theorem c4_counterexample_ledger_exceeds_capacity :
    get_directory_size c4Files = 20 * GB ∧
    capacityBytes < get_directory_size c4Files ∧
    cleanup_old_files c4Files
      = [⟨"f2.mp4", 2, 4 * GB⟩, ⟨"f3.mp4", 3, 4 * GB⟩,
         ⟨"f4.mp4", 4, 4 * GB⟩, ⟨"f5.mp4", 5, 4 * GB⟩] ∧
    get_directory_size (cleanup_old_files c4Files) = 16 * GB ∧
    capacityBytes + 4 * GB < get_directory_size (cleanup_old_files c4Files) := by
  refine ⟨by decide, by decide, by decide, by decide, by decide⟩

/-- C4 amended: immediately after an eviction pass, a directory that was at
or below the capacity ceiling is unchanged; a directory above it has been
reduced by at least `min(2 GB, total)` — the fixed cleanup target, with
whole-file overshoot — but the result can still exceed the ceiling when the
directory was more than 2 GB over it. -/
theorem c4_amended_eviction_frees_fixed_target (files : List FileInfo) :
    (get_directory_size files ≤ capacityBytes → cleanup_old_files files = files) ∧
    (capacityBytes < get_directory_size files →
      get_directory_size (cleanup_old_files files)
        ≤ get_directory_size files - min cleanupBytes (get_directory_size files)) := by
  constructor
  · intro h
    simp [cleanup_old_files, h]
  · intro h
    have hnot : ¬ get_directory_size files ≤ capacityBytes := Nat.not_le.mpr h
    have hd : cleanupDeleted files
        = (deleteOldest cleanupBytes 0 (sortByMtime files)).1 := by
      simp [cleanupDeleted, hnot]
    have hk : cleanup_old_files files
        = (deleteOldest cleanupBytes 0 (sortByMtime files)).2 := by
      simp [cleanup_old_files, hnot]
    have happ := deleteOldest_append cleanupBytes 0 (sortByMtime files)
    have hsum : get_directory_size (sortByMtime files) = get_directory_size files := by
      unfold get_directory_size
      exact List.Perm.sum_eq (List.Perm.map _ (sortByMtime_perm files))
    have hsplit : get_directory_size (cleanupDeleted files)
        + get_directory_size (cleanup_old_files files) = get_directory_size files := by
      rw [hd, hk, ← get_directory_size_append, happ, hsum]
    have hf := deleteOldest_freed cleanupBytes 0 (sortByMtime files)
    rw [Nat.zero_add, Nat.zero_add, hsum, ← hd] at hf
    omega

/-- Witness for C4's amended claim at the concrete 20 GB directory. -/
theorem c4_amended_witness :
    capacityBytes < get_directory_size c4Files ∧
    get_directory_size (cleanup_old_files c4Files)
      ≤ get_directory_size c4Files - min cleanupBytes (get_directory_size c4Files) :=
  ⟨by decide, (c4_amended_eviction_frees_fixed_target c4Files).2 (by decide)⟩

/- ===== Artifact fetcher (`download_comfyui_video`, server.py 659-727) =====
   The engine's completion payload maps node ids to node outputs; each node
   output may expose the media under `videos`, `images` (with an `animated`
   flag list) or `gifs`.  The network retrieval (`get_comfyui_video`,
   server.py 729-752) is the oracle `fetch`: `none` models its exception
   path (network failure → `return None`). -/

structure MediaRef where
  filename : Option String
  subfolder : Option String
  deriving DecidableEq, Repr

structure NodeOutput where
  videos : Option (List MediaRef)
  images : Option (List MediaRef)
  animated : Option (List Bool)
  gifs : Option (List MediaRef)
  deriving DecidableEq, Repr

abbrev FetchFn := String → String → Option String

/- `video_data = get_comfyui_video(...)` followed by `if video_data:` —
   empty bytes are falsy, so they do not count as a successful fetch. -/
def fetchTruthy (fetch : FetchFn) (fn sub : String) : Option String :=
  match fetch fn sub with
  | some b => if b = "" then none else some b
  | none => none

/- server.py 672-685: the `videos` field. -/
def tryVideos (fetch : FetchFn) (node : NodeOutput) : Option String :=
  match node.videos with
  | some (v :: _) =>
    match v.filename with
    | some f => if f ≠ "" then fetchTruthy fetch f (v.subfolder.getD "") else none
    | none => none
  | _ => none

/- server.py 705-718: the `gifs` field (same shape as `videos`). -/
def tryGifs (fetch : FetchFn) (node : NodeOutput) : Option String :=
  match node.gifs with
  | some (g :: _) =>
    match g.filename with
    | some f => if f ≠ "" then fetchTruthy fetch f (g.subfolder.getD "") else none
    | none => none
  | _ => none

/- server.py 696: `node_output.get("animated", [False])[0]` when the key is
   present, else `False`.  `[0]` on an empty list raises IndexError, which
   the outer handler turns into `return None`: modelled as `none`. -/
def animFlag (node : NodeOutput) : Option Bool :=
  match node.animated with
  | none => some false
  | some [] => none
  | some (b :: _) => some b

def hasVideoExt (f : String) : Bool :=
  f.endsWith ".mp4" || f.endsWith ".webm" || f.endsWith ".avi"
    || f.endsWith ".mov" || f.endsWith ".gif"

inductive TryRes where
  | found (b : String)
  | noMatch
  | exn
  deriving DecidableEq, Repr

/- server.py 687-703: the `images` field with the media-type sniff — treat
   the entry as video when the filename has a video/animation extension or
   the `animated` flag is set. -/
def tryImagesNode (fetch : FetchFn) (node : NodeOutput) : TryRes :=
  match node.images with
  | some (i :: _) =>
    let f := i.filename.getD ""
    let sub := i.subfolder.getD ""
    match animFlag node with
    | none => .exn
    | some ia =>
      if f ≠ "" ∧ (hasVideoExt f ∨ ia = true) then
        match fetchTruthy fetch f sub with
        | some b => .found b
        | none => .noMatch
      else .noMatch
  | _ => .noMatch

/- One iteration of the `for node_id, node_output in outputs.items()` body:
   `videos`, then `images` with the sniff, then `gifs`. -/
def tryNode (fetch : FetchFn) (node : NodeOutput) : TryRes :=
  match tryVideos fetch node with
  | some b => .found b
  | none =>
    match tryImagesNode fetch node with
    | .found b => .found b
    | .exn => .exn
    | .noMatch =>
      match tryGifs fetch node with
      | some b => .found b
      | none => .noMatch

/- The node scan: nodes are visited in the payload's iteration order; an
   exception anywhere aborts the whole function with `None`. -/
def downloadFromNodes (fetch : FetchFn) : List NodeOutput → Option String
  | [] => none
  | n :: rest =>
    match tryNode fetch n with
    | .found b => some b
    | .exn => none
    | .noMatch => downloadFromNodes fetch rest

/- `download_comfyui_video` (server.py 659-727), over the outputs dict. -/
def download_comfyui_video (fetch : FetchFn)
    (outputs : List (String × NodeOutput)) : Option String :=
  downloadFromNodes fetch (outputs.map Prod.snd)

def emptyNode : NodeOutput := ⟨none, none, none, none⟩

def gifOnlyNode : NodeOutput :=
  ⟨none, none, none, some [⟨some "a.gif", none⟩]⟩

def videoOnlyNode : NodeOutput :=
  ⟨some [⟨some "b.mp4", none⟩], none, none, none⟩

/- The C8 scenario node: an `images` entry naming "job123.mp4" with the
   `animated` flag set. -/
def mp4ImagesNode : NodeOutput :=
  ⟨none, some [⟨some "job123.mp4", none⟩], some [true], none⟩

def fetchTag : FetchFn := fun fn sub => some (fn ++ "|" ++ sub)

/-- C8 counterexample: with a payload whose first node exposes only `gifs`
("a.gif") and whose second node exposes `videos` ("b.mp4"), the fetcher
returns the first node's gif, not the primary-field `videos` match; swapping
the two nodes changes the result — so the priority is applied per node, the
payload-wide "first non-empty match by field priority regardless of node
order" reading of the claim is false. -/
theorem c8_counterexample_node_order_significant :
    download_comfyui_video fetchTag
        [("1", gifOnlyNode), ("2", videoOnlyNode)] = some "a.gif|" ∧
    download_comfyui_video fetchTag
        [("2", videoOnlyNode), ("1", gifOnlyNode)] = some "b.mp4|" ∧
    some "a.gif|" ≠ some "b.mp4|" := by
  refine ⟨rfl, rfl, by decide⟩

/-- C8 amended: the fetcher scans output nodes in the payload's iteration
order and, within each node, tries `videos`, then `images` with the
media-type sniff, then `gifs`, returning the first successful fetch (node
order is significant, so an earlier node's lower-priority field wins over a
later node's higher-priority field); an `images` entry naming a file with a
known video/animation extension, or carrying an `animated` flag set to true,
is treated as a video artifact and retrieved. -/
theorem c8_amended_per_node_priority :
    (∀ (fetch : FetchFn) (n : NodeOutput) (rest : List NodeOutput) (b : String),
      tryNode fetch n = .found b →
      downloadFromNodes fetch (n :: rest) = some b) ∧
    (∀ (fetch : FetchFn) (n : NodeOutput) (rest : List NodeOutput),
      tryNode fetch n = .noMatch →
      downloadFromNodes fetch (n :: rest) = downloadFromNodes fetch rest) ∧
    (∀ (fetch : FetchFn) (n : NodeOutput) (b : String),
      tryVideos fetch n = some b → tryNode fetch n = .found b) ∧
    (∀ (fetch : FetchFn) (n : NodeOutput) (b : String),
      tryVideos fetch n = none → tryImagesNode fetch n = .found b →
      tryNode fetch n = .found b) ∧
    (∀ (fetch : FetchFn) (n : NodeOutput) (b : String),
      tryVideos fetch n = none → tryImagesNode fetch n = .noMatch →
      tryGifs fetch n = some b → tryNode fetch n = .found b) ∧
    (∀ fetch : FetchFn,
      downloadFromNodes fetch [mp4ImagesNode]
        = fetchTruthy fetch "job123.mp4" "") := by
  refine ⟨?_, ?_, ?_, ?_, ?_, ?_⟩
  · intro fetch n rest b h
    rw [downloadFromNodes, h]
  · intro fetch n rest h
    rw [downloadFromNodes, h]
  · intro fetch n b h
    rw [tryNode, h]
  · intro fetch n b hv hi
    rw [tryNode, hv, hi]
  · intro fetch n b hv hi hg
    rw [tryNode, hv, hi, hg]
  · intro fetch
    rcases h : fetchTruthy fetch "job123.mp4" "" with _ | b <;>
      simp [downloadFromNodes, tryNode, tryVideos, tryImagesNode, tryGifs,
        animFlag, mp4ImagesNode, hasVideoExt, h]

/-- Witness for C8's amended claim at concrete inputs: a `videos` match on
the first node is returned, and the `images`+`animated` scenario node is
fetched as a video. -/
theorem c8_amended_witness :
    tryNode fetchTag videoOnlyNode = .found "b.mp4|" ∧
    downloadFromNodes fetchTag [videoOnlyNode] = some "b.mp4|" ∧
    downloadFromNodes fetchTag [mp4ImagesNode]
      = fetchTruthy fetchTag "job123.mp4" "" :=
  ⟨rfl, c8_amended_per_node_priority.1 fetchTag videoOnlyNode [] "b.mp4|" rfl,
   c8_amended_per_node_priority.2.2.2.2.2 fetchTag⟩

theorem tryVideos_noFetch (n : NodeOutput) :
    tryVideos (fun _ _ => none) n = none := by
  cases hv : n.videos with
  | none => simp [tryVideos, hv]
  | some l =>
    cases l with
    | nil => simp [tryVideos, hv]
    | cons v rest =>
      cases hf : v.filename with
      | none => simp [tryVideos, hv, hf]
      | some f => simp [tryVideos, hv, hf, fetchTruthy]

theorem tryGifs_noFetch (n : NodeOutput) :
    tryGifs (fun _ _ => none) n = none := by
  cases hv : n.gifs with
  | none => simp [tryGifs, hv]
  | some l =>
    cases l with
    | nil => simp [tryGifs, hv]
    | cons g rest =>
      cases hf : g.filename with
      | none => simp [tryGifs, hv, hf]
      | some f => simp [tryGifs, hv, hf, fetchTruthy]

theorem tryImagesNode_noFetch (n : NodeOutput) :
    tryImagesNode (fun _ _ => none) n = .noMatch
      ∨ tryImagesNode (fun _ _ => none) n = .exn := by
  cases hi : n.images with
  | none => left; simp [tryImagesNode, hi]
  | some l =>
    cases l with
    | nil => left; simp [tryImagesNode, hi]
    | cons i rest =>
      cases ha : animFlag n with
      | none => right; simp [tryImagesNode, hi, ha]
      | some ia => left; simp [tryImagesNode, hi, ha, fetchTruthy]

theorem downloadFromNodes_noFetch (nodes : List NodeOutput) :
    downloadFromNodes (fun _ _ => none) nodes = none := by
  induction nodes with
  | nil => rfl
  | cons n rest ih =>
    rcases tryImagesNode_noFetch n with hi | hi
    · have htn : tryNode (fun _ _ => none) n = .noMatch := by
        rw [tryNode, tryVideos_noFetch, hi, tryGifs_noFetch]
      rw [downloadFromNodes, htn]
      exact ih
    · have htn : tryNode (fun _ _ => none) n = .exn := by
        rw [tryNode, tryVideos_noFetch, hi]
      rw [downloadFromNodes, htn]

/-- C9 counterexample: a completion payload with no matching output field
and a payload whose artifact download fails at the network level produce
the very same result (`None`), and the terminal content delivered to the
caller is the identical degraded-success message in both cases — the two
failures are not distinguishable in the result delivered to the caller. -/
theorem c9_counterexample_failures_indistinguishable :
    download_comfyui_video fetchTag [("9", emptyNode)] = none ∧
    download_comfyui_video (fun _ _ => none) [("9", videoOnlyNode)] = none ∧
    completedContent "http://h" "job123"
        (download_comfyui_video fetchTag [("9", emptyNode)])
      = completedContent "http://h" "job123"
        (download_comfyui_video (fun _ _ => none) [("9", videoOnlyNode)]) := by
  refine ⟨rfl, rfl, rfl⟩

/-- C9 amended: failing to locate any matching output field and a network
failure of the artifact download both yield the same empty result (`None`),
and the caller then receives the same degraded-success message in either
case; the pipeline does not distinguish the two failures. -/
theorem c9_amended_failures_collapse :
    (∀ fetch : FetchFn, download_comfyui_video fetch [("9", emptyNode)] = none) ∧
    (∀ outputs : List (String × NodeOutput),
      download_comfyui_video (fun _ _ => none) outputs = none) ∧
    (∀ host pid : String, ∀ d₁ d₂ : Option String, d₁ = none → d₂ = none →
      completedContent host pid d₁ = completedContent host pid d₂
        ∧ completedContent host pid d₁ = degradedContent) := by
  refine ⟨fun _ => rfl, fun outputs => downloadFromNodes_noFetch _, ?_⟩
  intro host pid d₁ d₂ h₁ h₂
  subst h₁
  subst h₂
  exact ⟨rfl, rfl⟩

/-- Witness for C9's amended claim at concrete inputs. -/
theorem c9_amended_witness :
    download_comfyui_video fetchTag [("9", emptyNode)] = none ∧
    completedContent "http://h" "job123" none = degradedContent :=
  ⟨c9_amended_failures_collapse.1 fetchTag,
   (c9_amended_failures_collapse.2.2 "http://h" "job123" none none rfl rfl).2⟩

/- ===== Workflow templates and substitution (server.py 1306-1332,
   1513-1554) =====
   A workflow is a dict of node ids to nodes; each node has an `inputs`
   dict.  Every substitution in the source is guarded by a membership test
   (`if "89" in workflow:`) — a missing insertion point is skipped. -/

inductive PVal where
  | pstr (v : String)
  | pint (v : Int)
  deriving DecidableEq, Repr

structure WNode where
  inputs : List (String × PVal)
  deriving DecidableEq, Repr

abbrev Workflow := List (String × WNode)

def setDictVal : List (String × PVal) → String → PVal → List (String × PVal)
  | [], k, v => [(k, v)]
  | (k1, v1) :: rest, k, v =>
    if k1 = k then (k, v) :: rest else (k1, v1) :: setDictVal rest k v

def hasNode (wf : Workflow) (nodeId : String) : Bool :=
  wf.any (fun p => p.1 == nodeId)

/- `workflow[nodeId]["inputs"][field] = v` -/
def setInput (wf : Workflow) (nodeId field : String) (v : PVal) : Workflow :=
  wf.map (fun p =>
    if p.1 = nodeId then (p.1, WNode.mk (setDictVal p.2.inputs field v)) else p)

def t2vNegativeText : String :=
  "色调艳丽，过曝，静态，细节模糊不清，字幕，风格，作品，画作，画面，静止，整体发灰，最差质量，低质量，JPEG压缩残留，丑陋的，残缺的，多余的手指，画得不好的手部，画得不好的脸部，畸形的，毁容的，形态畸形的肢体，手指融合，静止不动的画面，杂乱的背景，三条腿，背景人很多，倒着走，裸露，NSFW"

/- server.py 1313-1332: the guarded substitutions of the t2v handler. -/
def updateT2VWorkflow (wf : Workflow) (prompt : String) (seed : Int) : Workflow :=
  let wf1 := if hasNode wf "89" then setInput wf "89" "text" (.pstr prompt) else wf
  let wf2 :=
    if hasNode wf1 "72" then setInput wf1 "72" "text" (.pstr t2vNegativeText) else wf1
  let wf3 :=
    if hasNode wf2 "74" then
      setInput (setInput (setInput wf2 "74" "width" (.pint 480))
        "74" "height" (.pint 832)) "74" "length" (.pint 81)
    else wf2
  let wf4 := if hasNode wf3 "81" then setInput wf3 "81" "noise_seed" (.pint seed) else wf3
  if hasNode wf4 "78" then setInput wf4 "78" "noise_seed" (.pint seed) else wf4

/- server.py 1524-1535 and 1553-1554: the guarded substitutions of the i2v
   handler (prompt nodes are left at their template values). -/
def updateI2VWorkflow (wf : Workflow) (seed : Int) (uploadedName : String) : Workflow :=
  let wf1 :=
    if hasNode wf "98" then
      setInput (setInput (setInput wf "98" "width" (.pint 480))
        "98" "height" (.pint 832)) "98" "length" (.pint 81)
    else wf
  let wf2 := if hasNode wf1 "86" then setInput wf1 "86" "noise_seed" (.pint seed) else wf1
  let wf3 := if hasNode wf2 "85" then setInput wf2 "85" "noise_seed" (.pint seed) else wf2
  if hasNode wf3 "97" then setInput wf3 "97" "image" (.pstr uploadedName) else wf3

/- ===== Request handlers (server.py 1284-1491 and 1493-1717) =====
   Control-flow embedding of one handler invocation.  The environment's
   choices (did the engine submission succeed, did something raise) are the
   event parameter; `semFree` is the number of free permits at the
   try-acquire; `releases` counts executions of `semaphore.release()`. -/

inductive RespKind where
  | busy429
  | badRequest400
  | err500
  | streamResp (pid : String)
  deriving DecidableEq, Repr

inductive T2VEvent where
  | submitOk (pid : String)
  | submitNoId
  | submitRaised
  | bodyRaised
  deriving DecidableEq, Repr

structure T2VRun where
  resp : RespKind
  acquired : Bool
  releases : Nat
  submitted : Option Workflow
  deriving DecidableEq, Repr

/- `handle_video_t2v` (server.py 1284-1491).  1296-1299: failed non-blocking
   acquire returns 429 before the try block, so no release; every path
   through the try block — stream response returned, submission without a
   prompt id, submission exception, any other exception — runs the finally
   block (1488-1491) exactly once, which releases the permit. -/
def handle_video_t2v (prompt : String) (seed : Int) (wf : Workflow)
    (semFree : Nat) (ev : T2VEvent) : T2VRun :=
  if semFree = 0 then ⟨.busy429, false, 0, none⟩
  else
    let wfS := updateT2VWorkflow wf prompt seed
    match ev with
    | .submitOk pid => ⟨.streamResp pid, true, 1, some wfS⟩
    | .submitNoId => ⟨.err500, true, 1, some wfS⟩
    | .submitRaised => ⟨.err500, true, 1, some wfS⟩
    | .bodyRaised => ⟨.err500, true, 1, none⟩

inductive I2VEvent where
  | decodeRaised
  | uploadRaised
  | submitOk (pid : String)
  | submitNoId
  | submitRaised
  deriving DecidableEq, Repr

structure I2VRun where
  resp : RespKind
  acquired : Bool
  releases : Nat
  tempSaved : Bool
  finalDir : Finset String
  submitted : Option Workflow

/- The finally block's removal attempt (server.py 1709-1713):
   `if os.path.exists(image_path): os.remove(image_path)` wrapped in a
   bare try/except that absorbs any failure (`removeOk = false`). -/
def i2vFinallyDir (dirNow : Finset String) (tempName : String)
    (removeOk : Bool) : Finset String :=
  if removeOk = true ∧ tempName ∈ dirNow then dirNow.erase tempName else dirNow

/- `handle_video_i2v` (server.py 1493-1717).  The artifact directory is the
   `dir` finset of file names; the handler's only write to it is saving the
   decoded input image under `tempName` (1538-1547), and its finally block
   attempts to remove that file, absorbs a removal failure, and then
   decrements the counter and releases the permit (1707-1717). -/
def handle_video_i2v (wf : Workflow) (seed : Int) (uploadedName : String)
    (hasImage : Bool) (semFree : Nat) (tempName : String)
    (ev : I2VEvent) (removeOk : Bool) (dir : Finset String) : I2VRun :=
  if hasImage = false then ⟨.badRequest400, false, 0, false, dir, none⟩
  else if semFree = 0 then ⟨.busy429, false, 0, false, dir, none⟩
  else
    let wfS := updateI2VWorkflow wf seed uploadedName
    let body : RespKind × Bool × Option Workflow :=
      match ev with
      | .decodeRaised => (.err500, false, none)
      | .uploadRaised => (.err500, true, none)
      | .submitNoId => (.err500, true, some wfS)
      | .submitRaised => (.err500, true, some wfS)
      | .submitOk pid => (.streamResp pid, true, some wfS)
    let dirAfterBody := if body.2.1 then insert tempName dir else dir
    ⟨body.1, true, 1, body.2.1, i2vFinallyDir dirAfterBody tempName removeOk, body.2.2⟩

/- The only write the streaming generator makes to the artifact directory:
   the output file `{prompt_id}.mp4`, written only when a video was
   downloaded (server.py 1425-1428 / 1644-1647). -/
def streamWrite (pid : String) (gotVideo : Bool) (dir : Finset String) : Finset String :=
  if gotVideo then insert (pid ++ ".mp4") dir else dir

/-- C2: a request admitted by the non-blocking try-acquire releases its
permit exactly once on every exit path of the handler — stream response
returned, submission failure, submission without a job id, or any raised
exception — and a request rejected at admission (or, for i2v, rejected
before admission for a missing image) performs no release at all; this
holds for both the text-to-video and the image-to-video handler. -/
theorem c2_permit_released_exactly_once :
    (∀ (prompt : String) (seed : Int) (wf : Workflow) (semFree : Nat) (ev : T2VEvent),
      ((handle_video_t2v prompt seed wf semFree ev).acquired = true ↔ semFree ≠ 0) ∧
      (semFree ≠ 0 → (handle_video_t2v prompt seed wf semFree ev).releases = 1) ∧
      (semFree = 0 → (handle_video_t2v prompt seed wf semFree ev).releases = 0)) ∧
    (∀ (wf : Workflow) (seed : Int) (un : String) (hasImage : Bool) (semFree : Nat)
        (tempName : String) (ev : I2VEvent) (removeOk : Bool) (dir : Finset String),
      ((handle_video_i2v wf seed un hasImage semFree tempName ev removeOk dir).acquired
          = true ↔ (hasImage = true ∧ semFree ≠ 0)) ∧
      (hasImage = true → semFree ≠ 0 →
        (handle_video_i2v wf seed un hasImage semFree tempName ev removeOk dir).releases
          = 1) ∧
      (hasImage = false ∨ semFree = 0 →
        (handle_video_i2v wf seed un hasImage semFree tempName ev removeOk dir).releases
          = 0)) := by
  constructor
  · intro prompt seed wf semFree ev
    by_cases h : semFree = 0
    · simp [handle_video_t2v, h]
    · cases ev <;> simp [handle_video_t2v, h]
  · intro wf seed un hasImage semFree tempName ev removeOk dir
    cases hasImage
    · simp [handle_video_i2v]
    · by_cases h : semFree = 0
      · simp [handle_video_i2v, h]
      · cases ev <;> simp [handle_video_i2v, h]

/-- Witness for C2 at concrete inputs: an admitted t2v request (5 free
permits, successful submission) releases once; a rejected t2v request (0
free permits) releases nothing; an admitted i2v request whose upload raises
still releases once. -/
theorem c2_permit_released_exactly_once_witness :
    (handle_video_t2v "p" 1 [] 5 (.submitOk "id1")).releases = 1 ∧
    (handle_video_t2v "p" 1 [] 0 .submitNoId).releases = 0 ∧
    (handle_video_i2v [] 1 "up.png" true 5 "tmp.png" .uploadRaised true ∅).releases
      = 1 :=
  ⟨(c2_permit_released_exactly_once.1 "p" 1 [] 5 (.submitOk "id1")).2.1 (by decide),
   (c2_permit_released_exactly_once.1 "p" 1 [] 0 .submitNoId).2.2 rfl,
   (c2_permit_released_exactly_once.2 [] 1 "up.png" true 5 "tmp.png" .uploadRaised
      true ∅).2.1 rfl (by decide)⟩

/-- C5 counterexample: on a template in which every named insertion point is
absent (the empty workflow), substitution silently returns the template
unchanged and the handler proceeds to submit it and answer with the stream
response — no error is returned, refuting "substitution fails loudly
whenever a named insertion point is absent". -/
theorem c5_counterexample_silent_skip :
    updateT2VWorkflow [] "a prompt" 42 = [] ∧
    (handle_video_t2v "a prompt" 42 [] 5 (.submitOk "pid1")).resp
      = .streamResp "pid1" ∧
    (handle_video_t2v "a prompt" 42 [] 5 (.submitOk "pid1")).submitted = some [] := by
  refine ⟨rfl, rfl, rfl⟩

/-- C5 amended: substitution silently skips absent insertion points — each
substitution is guarded by a membership test on the template and is
performed only when the named node is present; when every named insertion
point is absent the template is returned unchanged, and the handler
proceeds to submission without any error. -/
theorem c5_amended_substitution_skips_missing :
    (∀ (wf : Workflow) (prompt : String) (seed : Int),
      hasNode wf "89" = false → hasNode wf "72" = false → hasNode wf "74" = false →
      hasNode wf "81" = false → hasNode wf "78" = false →
      updateT2VWorkflow wf prompt seed = wf) ∧
    (∀ (wf : Workflow) (seed : Int) (un : String),
      hasNode wf "98" = false → hasNode wf "86" = false → hasNode wf "85" = false →
      hasNode wf "97" = false →
      updateI2VWorkflow wf seed un = wf) ∧
    (∀ (prompt : String) (seed : Int) (wf : Workflow) (semFree : Nat) (pid : String),
      semFree ≠ 0 →
      (handle_video_t2v prompt seed wf semFree (.submitOk pid)).resp
        = .streamResp pid ∧
      (handle_video_t2v prompt seed wf semFree (.submitOk pid)).submitted
        = some (updateT2VWorkflow wf prompt seed)) := by
  refine ⟨?_, ?_, ?_⟩
  · intro wf prompt seed h89 h72 h74 h81 h78
    simp [updateT2VWorkflow, h89, h72, h74, h81, h78]
  · intro wf seed un h98 h86 h85 h97
    simp [updateI2VWorkflow, h98, h86, h85, h97]
  · intro prompt seed wf semFree pid h
    simp [handle_video_t2v, h]

/-- Witness for C5's amended claim at the empty template and an admitted
request. -/
theorem c5_amended_witness :
    updateT2VWorkflow [] "p" 7 = [] ∧
    (handle_video_t2v "p" 7 [] 5 (.submitOk "x1")).resp = .streamResp "x1" :=
  ⟨c5_amended_substitution_skips_missing.1 [] "p" 7 rfl rfl rfl rfl rfl,
   (c5_amended_substitution_skips_missing.2.2 "p" 7 [] 5 "x1" (by decide)).1⟩

/-- C10: every admitted image-to-video request that reaches the point of
saving its decoded input image (every event except a decode failure) has
the temporary file removed by the finally block on every exit path when the
removal succeeds; a removal failure is absorbed — the permit release (and
counter decrement) still happen; and, together with the streaming
generator's output write, the request touches no name in the artifact
directory other than the temporary input file and the output artifact. -/
theorem c10_i2v_temp_file_cleanup (wf : Workflow) (seed : Int)
    (un tempName : String) (ev : I2VEvent) (removeOk : Bool)
    (dir : Finset String) (semFree : Nat)
    (hs : semFree ≠ 0) (he : ev ≠ .decodeRaised) :
    (handle_video_i2v wf seed un true semFree tempName ev removeOk dir).tempSaved
        = true ∧
    (handle_video_i2v wf seed un true semFree tempName ev removeOk dir).acquired
        = true ∧
    (handle_video_i2v wf seed un true semFree tempName ev removeOk dir).releases
        = 1 ∧
    (removeOk = true →
      (handle_video_i2v wf seed un true semFree tempName ev removeOk dir).finalDir
        = dir.erase tempName) ∧
    (removeOk = false →
      (handle_video_i2v wf seed un true semFree tempName ev removeOk dir).finalDir
        = insert tempName dir) ∧
    (∀ (pid : String) (gotVideo : Bool),
      streamWrite pid gotVideo
          (handle_video_i2v wf seed un true semFree tempName ev removeOk dir).finalDir
          \ dir ⊆ {tempName, pid ++ ".mp4"} ∧
      dir \ streamWrite pid gotVideo
          (handle_video_i2v wf seed un true semFree tempName ev removeOk dir).finalDir
        ⊆ {tempName}) := by
  have hfd : (handle_video_i2v wf seed un true semFree tempName ev removeOk dir).finalDir
      = if removeOk = true then dir.erase tempName else insert tempName dir := by
    cases ev with
    | decodeRaised => exact absurd rfl he
    | uploadRaised =>
      cases removeOk <;>
        simp [handle_video_i2v, hs, i2vFinallyDir, Finset.erase_insert_eq_erase]
    | submitOk pid =>
      cases removeOk <;>
        simp [handle_video_i2v, hs, i2vFinallyDir, Finset.erase_insert_eq_erase]
    | submitNoId =>
      cases removeOk <;>
        simp [handle_video_i2v, hs, i2vFinallyDir, Finset.erase_insert_eq_erase]
    | submitRaised =>
      cases removeOk <;>
        simp [handle_video_i2v, hs, i2vFinallyDir, Finset.erase_insert_eq_erase]
  refine ⟨?_, ?_, ?_, ?_, ?_, ?_⟩
  · cases ev <;> first
      | exact absurd rfl he
      | simp [handle_video_i2v, hs]
  · cases ev <;> first
      | exact absurd rfl he
      | simp [handle_video_i2v, hs]
  · cases ev <;> first
      | exact absurd rfl he
      | simp [handle_video_i2v, hs]
  · intro hr
    rw [hfd, if_pos hr]
  · intro hr
    rw [hfd]
    cases removeOk
    · rfl
    · exact absurd hr (by decide)
  · intro pid gotVideo
    rw [hfd]
    cases removeOk <;> cases gotVideo <;> constructor <;> intro x hx <;>
      simp only [if_true, if_false, Bool.true_eq_false, Bool.false_eq_true,
        streamWrite, Finset.mem_sdiff, Finset.mem_insert, Finset.mem_erase,
        Finset.mem_singleton, ite_true, ite_false] at hx ⊢ <;>
      tauto

/-- Witness for C10 at concrete inputs: an admitted i2v request with a
successful submission and a successful removal leaves the (initially empty)
artifact directory without the temporary file and releases once. -/
theorem c10_i2v_temp_file_cleanup_witness :
    (handle_video_i2v [] 1 "up.png" true 5 "tmp123.png" (.submitOk "p9") true
        ∅).releases = 1 ∧
    (handle_video_i2v [] 1 "up.png" true 5 "tmp123.png" (.submitOk "p9") true
        ∅).finalDir = (∅ : Finset String).erase "tmp123.png" :=
  ⟨(c10_i2v_temp_file_cleanup [] 1 "up.png" "tmp123.png" (.submitOk "p9") true ∅ 5
      (by decide) (by decide)).2.2.1,
   (c10_i2v_temp_file_cleanup [] 1 "up.png" "tmp123.png" (.submitOk "p9") true ∅ 5
      (by decide) (by decide)).2.2.2.1 rfl⟩

/- ===== Concurrency: the permit lifecycle of one job class =====
   The t2v class's shared state: `sem` free permits (`t2v_semaphore`),
   `count` (`t2v_count`), and the jobs partitioned by phase.  The
   transitions are those of the CODE:
   - `admitJob`: the non-blocking acquire succeeds (server.py 1296-1302);
   - `handlerReturnStream`: the handler returns the streaming `Response`
     object (server.py 1479-1483); the `finally` block (1488-1491) runs at
     that return, decrementing the counter and RELEASING THE PERMIT — the
     generator that polls and streams runs only afterwards, so the job
     moves to the `streaming` phase with its permit already released;
   - `handlerReturnError`: an error exit path; the finally block also runs;
   - `streamEnd`: the poll/stream generator finishes. -/

structure T2VSys where
  sem : Nat
  count : Nat
  handlerJobs : Nat
  streamingJobs : Nat
  doneJobs : Nat
  deriving DecidableEq, Repr

inductive T2VStep : T2VSys → T2VSys → Prop where
  | admitJob (s : T2VSys) (h : 0 < s.sem) :
      T2VStep s ⟨s.sem - 1, s.count + 1, s.handlerJobs + 1, s.streamingJobs, s.doneJobs⟩
  | handlerReturnStream (s : T2VSys) (h : 0 < s.handlerJobs) :
      T2VStep s ⟨s.sem + 1, s.count - 1, s.handlerJobs - 1, s.streamingJobs + 1, s.doneJobs⟩
  | handlerReturnError (s : T2VSys) (h : 0 < s.handlerJobs) :
      T2VStep s ⟨s.sem + 1, s.count - 1, s.handlerJobs - 1, s.streamingJobs, s.doneJobs + 1⟩
  | streamEnd (s : T2VSys) (h : 0 < s.streamingJobs) :
      T2VStep s ⟨s.sem, s.count, s.handlerJobs, s.streamingJobs - 1, s.doneJobs + 1⟩

def t2vInit : T2VSys := ⟨MAX_CONCURRENT_T2V, 0, 0, 0, 0⟩

def T2VReachable (s : T2VSys) : Prop := Relation.ReflTransGen T2VStep t2vInit s

/- Jobs in flight in the claim's sense: admitted and still inside their
   handler or their poll/stream lifecycle. -/
def inFlight (s : T2VSys) : Nat := s.handlerJobs + s.streamingJobs

/-- C1: the semaphore itself is never over-acquired (free permits plus jobs
still inside the handler always equal the configured maximum), but because
the handler's finally block releases the permit when the streaming
`Response` is returned — before the poll/stream generator runs — a state
with 6 jobs of the class concurrently in flight (admission through the end
of the poll/stream lifecycle) is reachable, exceeding the configured
maximum of 5: the claimed equivalence of held permits with in-flight jobs
fails in the code. -/
theorem c1_six_jobs_in_flight_reachable :
    (∀ s, T2VReachable s → s.sem + s.handlerJobs = MAX_CONCURRENT_T2V) ∧
    T2VReachable ⟨4, 1, 1, 5, 0⟩ ∧
    inFlight ⟨4, 1, 1, 5, 0⟩ = 6 ∧
    MAX_CONCURRENT_T2V < inFlight ⟨4, 1, 1, 5, 0⟩ := by
  refine ⟨?_, ?_, rfl, by decide⟩
  · intro s h
    induction h with
    | refl => rfl
    | tail hab hbc ih =>
      cases hbc <;> simp only [MAX_CONCURRENT_T2V] at ih ⊢ <;> omega
  · have e1 : T2VStep ⟨5, 0, 0, 0, 0⟩ ⟨4, 1, 1, 0, 0⟩ :=
      T2VStep.admitJob ⟨5, 0, 0, 0, 0⟩ (by decide)
    have e2 : T2VStep ⟨4, 1, 1, 0, 0⟩ ⟨3, 2, 2, 0, 0⟩ :=
      T2VStep.admitJob ⟨4, 1, 1, 0, 0⟩ (by decide)
    have e3 : T2VStep ⟨3, 2, 2, 0, 0⟩ ⟨2, 3, 3, 0, 0⟩ :=
      T2VStep.admitJob ⟨3, 2, 2, 0, 0⟩ (by decide)
    have e4 : T2VStep ⟨2, 3, 3, 0, 0⟩ ⟨1, 4, 4, 0, 0⟩ :=
      T2VStep.admitJob ⟨2, 3, 3, 0, 0⟩ (by decide)
    have e5 : T2VStep ⟨1, 4, 4, 0, 0⟩ ⟨0, 5, 5, 0, 0⟩ :=
      T2VStep.admitJob ⟨1, 4, 4, 0, 0⟩ (by decide)
    have e6 : T2VStep ⟨0, 5, 5, 0, 0⟩ ⟨1, 4, 4, 1, 0⟩ :=
      T2VStep.handlerReturnStream ⟨0, 5, 5, 0, 0⟩ (by decide)
    have e7 : T2VStep ⟨1, 4, 4, 1, 0⟩ ⟨2, 3, 3, 2, 0⟩ :=
      T2VStep.handlerReturnStream ⟨1, 4, 4, 1, 0⟩ (by decide)
    have e8 : T2VStep ⟨2, 3, 3, 2, 0⟩ ⟨3, 2, 2, 3, 0⟩ :=
      T2VStep.handlerReturnStream ⟨2, 3, 3, 2, 0⟩ (by decide)
    have e9 : T2VStep ⟨3, 2, 2, 3, 0⟩ ⟨4, 1, 1, 4, 0⟩ :=
      T2VStep.handlerReturnStream ⟨3, 2, 2, 3, 0⟩ (by decide)
    have e10 : T2VStep ⟨4, 1, 1, 4, 0⟩ ⟨5, 0, 0, 5, 0⟩ :=
      T2VStep.handlerReturnStream ⟨4, 1, 1, 4, 0⟩ (by decide)
    have e11 : T2VStep ⟨5, 0, 0, 5, 0⟩ ⟨4, 1, 1, 5, 0⟩ :=
      T2VStep.admitJob ⟨5, 0, 0, 5, 0⟩ (by decide)
    exact Relation.ReflTransGen.tail
      (Relation.ReflTransGen.tail
        (Relation.ReflTransGen.tail
          (Relation.ReflTransGen.tail
            (Relation.ReflTransGen.tail
              (Relation.ReflTransGen.tail
                (Relation.ReflTransGen.tail
                  (Relation.ReflTransGen.tail
                    (Relation.ReflTransGen.tail
                      (Relation.ReflTransGen.tail
                        (Relation.ReflTransGen.tail Relation.ReflTransGen.refl e1)
                        e2) e3) e4) e5) e6) e7) e8) e9) e10) e11

/-- Witness for C1 at the initial state: it is reachable and satisfies the
permit invariant. -/
theorem c1_six_jobs_in_flight_reachable_witness :
    T2VReachable t2vInit
      ∧ t2vInit.sem + t2vInit.handlerJobs = MAX_CONCURRENT_T2V :=
  ⟨Relation.ReflTransGen.refl,
   c1_six_jobs_in_flight_reachable.1 t2vInit Relation.ReflTransGen.refl⟩
